import Mathlib

/-!
Shallow embedding of the core of the Notes service (Django/DRF backend,
`backend/notes/models.py`, `backend/notes/serializers.py`,
`backend/notes/views.py`, `backend/notes/urls.py`).

Modelling conventions:
* Database rows are Lean structures; foreign keys are stored as the unique
  slug of the referenced row (users are keyed by `userslug`, which is the
  primary key in `models.py`; notes by `slug`).
* The whole persistent store is a `DB` record of lists, in insertion order
  (Django default ordering for these models is insertion/pk order).
* Each HTTP operation is a function `DB → inputs → Resp α × DB`: it returns
  the response together with the store after the call.  Error responses
  leave the store unchanged, exactly as the views do (they only call
  `perform_create` / `serializer.save()` after validation passes).
* `auto_now_add` timestamps are modelled by an explicit `now : Nat`
  parameter; freshly generated slugs (`uuid.uuid4().hex[:n]`) by an explicit
  `freshSlug : String` parameter.
* DRF field machinery: the serializers declare `required=True` fields whose
  default is `allow_blank=False`, so a blank string is rejected with the
  per-field error "This field may not be blank." before any object-level
  code runs; these blank checks are modelled.  Generic framework format
  validation (the e-mail regex of `EmailField`, the slug regex of
  `SlugField`) and the presence check for missing keys are framework
  plumbing outside the repository and are not modelled; inputs are taken as
  already-present strings.
-/

/-- A row of `NotesUser` (models.py).  `userslug` is the primary key;
`username` is set to the e-mail by `UserRegistrationSerializer.validate`. -/
structure NotesUser where
  userslug : String
  username : String
  email : String
  password : String
  first_name : String
  last_name : String
deriving DecidableEq, Repr

/-- A row of `Note` (models.py).  `created_by_user` and
`last_modified_by_user` are foreign keys to `NotesUser`, stored here as the
referenced `userslug`. -/
structure Note where
  slug : String
  created_by_user : String
  last_modified_by_user : String
  content : String
  created_at : Nat
deriving DecidableEq, Repr

/-- A row of `NoteHistory` (models.py).  `note` is a foreign key to `Note`,
stored as the referenced note slug; `updated_by_user` as the editor
userslug.  `timestamp` is `auto_now_add`. -/
structure NoteHistory where
  note : String
  original_content : String
  updated_content : String
  updated_by_user : String
  timestamp : Nat
deriving DecidableEq, Repr

/-- A row of `SharedNote` (models.py) together with its `shared_with`
many-to-many rows, stored as the list of recipient userslugs in the order
`shared_with.add` was called (the m2m add is idempotent, so the list has no
duplicates). -/
structure SharedNote where
  note : String
  shared_by : String
  shared_with : List String
  shared_at : Nat
deriving DecidableEq, Repr

/-- The persistent store: every table of the app, rows in insertion order. -/
structure DB where
  users : List NotesUser
  notes : List Note
  history : List NoteHistory
  shares : List SharedNote
deriving DecidableEq, Repr

/-- `NotesUser.objects.filter(userslug=s).first()` / `.get(userslug=s)`. -/
def DB.findUserBySlug (db : DB) (s : String) : Option NotesUser :=
  db.users.find? (fun u => u.userslug == s)

/-- `Note.objects.filter(slug=s).first()` / `.get(slug=s)`. -/
def DB.findNoteBySlug (db : DB) (s : String) : Option Note :=
  db.notes.find? (fun n => n.slug == s)

/-- Outcome of one HTTP call, as produced by the DRF view layer:
* `ok` — 2xx response carrying the serialized object;
* `clientError` — 4xx response with the structured per-field error list,
  either from `serializer.is_valid()` returning `False` or from a
  `serializers.ValidationError` raised later and caught by the DRF
  exception handler;
* `notFound` — structured 404 from `get_object()` raising `Http404`,
  caught by the DRF exception handler;
* `serverError` — an exception (such as `Model.DoesNotExist` from
  `Model.objects.get`) that is neither an `APIException` nor `Http404`, so
  it escapes the DRF exception handler and becomes an unhandled 500: a
  process-level fault for the request, not a structured outcome. -/
inductive Resp (α : Type) where
  | ok (value : α)
  | clientError (errors : List (String × String))
  | notFound (msg : String)
  | serverError (msg : String)
deriving DecidableEq, Repr

/-- `POST /signup`: `UserRegistrationAPIView.create` with
`UserRegistrationSerializer` (serializers.py).  Field validation collects
per-field errors in declared field order: `email` (blank check, then
`validate_email`, which rejects an e-mail already present with
"Email must be unique"), then `password` (blank check).  `validate` sets
`username` to the e-mail; `create` calls `create_user`, and
`NotesUser.save` fills the fresh slug (`uuid4().hex[:10]`, here the
`freshSlug` parameter) since none was supplied. -/
def registerView (db : DB) (freshSlug email password first_name last_name : String) :
    Resp NotesUser × DB :=
  let fieldErrors :=
    (if email == "" then [("email", "This field may not be blank.")]
     else if db.users.any (fun u => u.email == email) then
       [("email", "Email must be unique")]
     else [])
    ++ (if password == "" then [("password", "This field may not be blank.")] else [])
  if fieldErrors.isEmpty then
    let user : NotesUser :=
      { userslug := freshSlug, username := email, email := email,
        password := password, first_name := first_name, last_name := last_name }
    (Resp.ok user, { db with users := db.users ++ [user] })
  else
    (Resp.clientError fieldErrors, db)

/-- `POST /notes/create/`: `NoteCreateAPIView.create` with `NoteSerializer`
(serializers.py).  Field validation in declared order: `user_slug` (blank
check, then `validate_user_slug`, which rejects a slug with no matching
user with "User does not exist"), then `content` (blank check).  `create`
looks the owner up and builds
`Note(created_by_user=user, content=content, last_modified_by_user=user)`;
`Note.save` fills the fresh slug (`uuid4().hex[:9]`, here `freshSlug`) and
`created_at = now`.  No `NoteHistory` row is created. -/
def createNoteView (db : DB) (now : Nat) (freshSlug user_slug content : String) :
    Resp Note × DB :=
  let fieldErrors :=
    (if user_slug == "" then [("user_slug", "This field may not be blank.")]
     else if (db.findUserBySlug user_slug).isNone then
       [("user_slug", "User does not exist")]
     else [])
    ++ (if content == "" then [("content", "This field may not be blank.")] else [])
  if fieldErrors.isEmpty then
    let note : Note :=
      { slug := freshSlug, created_by_user := user_slug,
        last_modified_by_user := user_slug, content := content, created_at := now }
    (Resp.ok note, { db with notes := db.notes ++ [note] })
  else
    (Resp.clientError fieldErrors, db)

/-- `PUT /notes/<slug>/`: `NoteDetailAPIView.update` with
`NoteViewSerializer` (serializers.py).  `get_object()` resolves `url_slug`
via `lookup_field = slug` and raises `Http404` (structured 404) if no note
matches.  Field validation then checks the request body: `slug`,
`content` and `last_modified_by_user` are all `required=True` with blank
rejected.  `NoteViewSerializer.update` resolves the editor by userslug:
if absent, it raises `serializers.ValidationError("Invalid user slug
provided.")` (caught by DRF, a structured 400) before touching anything;
otherwise it captures `original_content`, overwrites `content` and
`last_modified_by_user`, saves (the slug is non-blank so `Note.save`
keeps it), and creates one `NoteHistory` row with
`updated_content = instance.content` and the editor.  The body `slug`
field is validated but never read by `update`, so it cannot change the
stored slug. -/
def updateNoteView (db : DB) (now : Nat)
    (url_slug body_slug content editor_slug : String) : Resp Note × DB :=
  match db.findNoteBySlug url_slug with
  | none => (Resp.notFound "Not found.", db)
  | some note0 =>
    let fieldErrors :=
      (if body_slug == "" then [("slug", "This field may not be blank.")] else [])
      ++ (if content == "" then [("content", "This field may not be blank.")] else [])
      ++ (if editor_slug == "" then
            [("last_modified_by_user", "This field may not be blank.")]
          else [])
    if fieldErrors.isEmpty then
      match db.findUserBySlug editor_slug with
      | some modified_user =>
        let updated : Note :=
          { note0 with content := content,
                       last_modified_by_user := modified_user.userslug }
        let entry : NoteHistory :=
          { note := note0.slug, original_content := note0.content,
            updated_content := content,
            updated_by_user := modified_user.userslug, timestamp := now }
        (Resp.ok updated,
         { db with
             notes := db.notes.map (fun n => if n.slug == url_slug then updated else n),
             history := db.history ++ [entry] })
      | none => (Resp.clientError [("detail", "Invalid user slug provided.")], db)
    else
      (Resp.clientError fieldErrors, db)

/-- One serialized `NoteHistory` row as produced by `NoteHistorySerializer`
(serializers.py): the note slug through the foreign key, both content
fields, the editor e-mail through the foreign key, and the timestamp
(`modified_time` is the strftime rendering of this value; the raw
timestamp is kept here). -/
structure HistoryOut where
  note_slug : String
  original_content : String
  updated_content : String
  modified_by : String
  modified_time : Nat
deriving DecidableEq, Repr

/-- `GET /notes/version-history/<slug>/`: `NoteVersionHistoryAPIView`
(views.py), a `ListAPIView` whose queryset is `NoteHistory.objects.all()`.
The view defines no `get_queryset` and never reads the URL slug, so the
parameter is accepted by the route (urls.py) and then ignored: every
`NoteHistory` row of every note is serialized, in insertion order. -/
def historyView (db : DB) (slug : String) : List HistoryOut :=
  db.history.map (fun h =>
    { note_slug := h.note,
      original_content := h.original_content,
      updated_content := h.updated_content,
      modified_by :=
        (match db.findUserBySlug h.updated_by_user with
         | some u => u.email
         | none => ""),
      modified_time := h.timestamp })

/-- One step of the recipient loop in `SharedNoteSerializer.create`:
`NotesUser.objects.filter(userslug=slug).first()`, and on a hit an
idempotent `shared_with.add(user)`; an unresolved slug is skipped without
any error. -/
def addRecipient (db : DB) (acc : List String) (slug : String) : List String :=
  match db.findUserBySlug slug with
  | some user => if acc.contains user.userslug then acc else acc ++ [user.userslug]
  | none => acc

/-- The recipient set accumulated by the loop of
`SharedNoteSerializer.create` over `shared_with_slugs`. -/
def resolveRecipients (db : DB) (slugs : List String) : List String :=
  slugs.foldl (addRecipient db) []

/-- `POST /notes/share/`: `SharedNoteAPIView.create` with
`SharedNoteSerializer` (serializers.py).  `is_valid` only checks the three
declared fields (`note`, `shared_by` slugs with blank rejected;
`shared_with` a list, empty allowed) — no existence checks happen during
validation.  `create` then calls `Note.objects.get(slug=...)` and
`NotesUser.objects.get(userslug=...)`: a miss raises `DoesNotExist`, which
no layer catches, so the request ends in an unhandled 500 (`serverError`)
with no `SharedNote` row created.  On success a `SharedNote` row is
created and each recipient slug is independently resolved; unresolved
slugs are silently skipped. -/
def shareView (db : DB) (now : Nat)
    (note_slug shared_by_slug : String) (shared_with_slugs : List String) :
    Resp SharedNote × DB :=
  let fieldErrors :=
    (if note_slug == "" then [("note", "This field may not be blank.")] else [])
    ++ (if shared_by_slug == "" then [("shared_by", "This field may not be blank.")] else [])
  if fieldErrors.isEmpty then
    match db.findNoteBySlug note_slug with
    | none => (Resp.serverError "Note matching query does not exist.", db)
    | some shared_note =>
      match db.findUserBySlug shared_by_slug with
      | none => (Resp.serverError "NotesUser matching query does not exist.", db)
      | some shared_by =>
        let grant : SharedNote :=
          { note := shared_note.slug, shared_by := shared_by.userslug,
            shared_with := resolveRecipients db shared_with_slugs, shared_at := now }
        (Resp.ok grant, { db with shares := db.shares ++ [grant] })
  else
    (Resp.clientError fieldErrors, db)

/-- The empty store: the state before any request. -/
def dbEmpty : DB := { users := [], notes := [], history := [], shares := [] }

/-- Store after registering one user (`a@x.com`, fresh slug `useroneslg`). -/
def sdb1 : DB := (registerView dbEmpty "useroneslg" "a@x.com" "pw" "Ann" "Lee").2

/-- Store after that user creates a first note (`noteoneslg`, "hello"). -/
def sdb2 : DB := (createNoteView sdb1 1 "noteoneslg" "useroneslg" "hello").2

/-- Store after a second note (`notetwoslg`, "bye") by the same user. -/
def hdb3 : DB := (createNoteView sdb2 2 "notetwoslg" "useroneslg" "bye").2

/-- Store after updating the first note to "hello world". -/
def hdb4 : DB :=
  (updateNoteView hdb3 3 "noteoneslg" "noteoneslg" "hello world" "useroneslg").2

/-- Store after updating the second note to "bye bye". -/
def hdb5 : DB :=
  (updateNoteView hdb4 4 "notetwoslg" "notetwoslg" "bye bye" "useroneslg").2

/-- The user row created in `sdb1`. -/
def userOne : NotesUser :=
  { userslug := "useroneslg", username := "a@x.com", email := "a@x.com",
    password := "pw", first_name := "Ann", last_name := "Lee" }

/-- The note row created in `sdb2`. -/
def noteOne : Note :=
  { slug := "noteoneslg", created_by_user := "useroneslg",
    last_modified_by_user := "useroneslg", content := "hello", created_at := 1 }

/-- A hit of `findUserBySlug` returns the user whose `userslug` is the
queried slug. -/
theorem findUserBySlug_userslug {db : DB} {s : String} {u : NotesUser}
    (h : db.findUserBySlug s = some u) : u.userslug = s := by
  have h2 := List.find?_some h
  simpa using h2

/-- A hit of `findNoteBySlug` returns the note whose `slug` is the queried
slug. -/
theorem findNoteBySlug_slug {db : DB} {s : String} {n : Note}
    (h : db.findNoteBySlug s = some n) : n.slug = s := by
  have h2 := List.find?_some h
  simpa using h2

/-- A hit of `findNoteBySlug` is a member of the note table. -/
theorem findNoteBySlug_mem {db : DB} {s : String} {n : Note}
    (h : db.findNoteBySlug s = some n) : n ∈ db.notes :=
  List.mem_of_find?_eq_some h

/-- Unfolding `addRecipient` on an unresolved slug: nothing is added. -/
theorem addRecipient_of_none {db : DB} {acc : List String} {s : String}
    (h : db.findUserBySlug s = none) : addRecipient db acc s = acc := by
  unfold addRecipient
  rw [h]

/-- Unfolding `addRecipient` on a resolved slug: idempotent append. -/
theorem addRecipient_of_some {db : DB} {acc : List String} {s : String}
    {u : NotesUser} (h : db.findUserBySlug s = some u) :
    addRecipient db acc s =
      if acc.contains u.userslug then acc else acc ++ [u.userslug] := by
  unfold addRecipient
  rw [h]

/-- Membership in the recipient fold of `SharedNoteSerializer.create`: a
slug ends up in the accumulator iff it was already there or it occurs in
the remaining input and resolves to a user. -/
theorem mem_foldl_addRecipient (db : DB) (slugs : List String) (acc : List String)
    (s : String) :
    s ∈ List.foldl (addRecipient db) acc slugs ↔
      s ∈ acc ∨ (s ∈ slugs ∧ (db.findUserBySlug s).isSome) := by
  induction slugs generalizing acc with
  | nil => simp
  | cons a as ih =>
    rw [List.foldl_cons]
    cases hfind : db.findUserBySlug a with
    | none =>
      rw [addRecipient_of_none hfind, ih]
      simp only [List.mem_cons]
      constructor
      · rintro (h | ⟨h, hs⟩)
        · exact Or.inl h
        · exact Or.inr ⟨Or.inr h, hs⟩
      · rintro (h | ⟨h | h, hs⟩)
        · exact Or.inl h
        · subst h
          rw [hfind] at hs
          simp at hs
        · exact Or.inr ⟨h, hs⟩
    | some u =>
      have hu : u.userslug = a := findUserBySlug_userslug hfind
      subst hu
      rw [addRecipient_of_some hfind, ih]
      by_cases hc : acc.contains u.userslug
      · rw [if_pos hc]
        have hmem : u.userslug ∈ acc := by simpa using hc
        simp only [List.mem_cons]
        constructor
        · rintro (h | ⟨h, hs⟩)
          · exact Or.inl h
          · exact Or.inr ⟨Or.inr h, hs⟩
        · rintro (h | ⟨h | h, hs⟩)
          · exact Or.inl h
          · subst h
            exact Or.inl hmem
          · exact Or.inr ⟨h, hs⟩
      · rw [if_neg hc]
        have hsome : (db.findUserBySlug u.userslug).isSome = true := by
          rw [hfind]
          rfl
        simp only [List.mem_append, List.mem_cons, List.not_mem_nil, or_false,
          List.mem_singleton]
        constructor
        · rintro ((h | h) | ⟨h, hs⟩)
          · exact Or.inl h
          · subst h
            exact Or.inr ⟨Or.inl rfl, hsome⟩
          · exact Or.inr ⟨Or.inr h, hs⟩
        · rintro (h | ⟨h | h, hs⟩)
          · exact Or.inl (Or.inl h)
          · exact Or.inl (Or.inr h)
          · exact Or.inr ⟨h, hs⟩

/-- Membership in the recipient set accumulated by
`SharedNoteSerializer.create`: exactly the input slugs that resolve. -/
theorem mem_resolveRecipients (db : DB) (slugs : List String) (s : String) :
    s ∈ resolveRecipients db slugs ↔ s ∈ slugs ∧ (db.findUserBySlug s).isSome := by
  unfold resolveRecipients
  rw [mem_foldl_addRecipient]
  simp

/-- C2: `update_note` with an editor slug that resolves to no user fails
with the structured "Invalid user slug provided." error (the spec's
`UnknownUser`) and leaves the whole store unchanged: the note keeps its
content and `last_modified_by_user`, and no revision entry is appended. -/
theorem update_unknown_editor_leaves_state (db : DB) (now : Nat)
    (url_slug body_slug content editor_slug : String) (note0 : Note)
    (hnote : db.findNoteBySlug url_slug = some note0)
    (hbody : body_slug ≠ "") (hcontent : content ≠ "") (hedit : editor_slug ≠ "")
    (huser : db.findUserBySlug editor_slug = none) :
    (updateNoteView db now url_slug body_slug content editor_slug).1 =
      Resp.clientError [("detail", "Invalid user slug provided.")] ∧
    (updateNoteView db now url_slug body_slug content editor_slug).2 = db := by
  simp [updateNoteView, hnote, huser, hbody, hcontent, hedit]

/-- C3: a successful `update_note` on an existing note with a resolving
editor overwrites the note content with the new content, records the editor
as `last_modified_by_user`, and appends exactly one revision entry to the
ledger, whose `original_content` is the content immediately before the
call, whose `updated_content` is the new content, and whose editor is the
resolved user.  No hypothesis compares the new content with the old, so
the entry is appended even when they are equal (no no-op short-circuit). -/
theorem update_success_appends_one_revision (db : DB) (now : Nat)
    (url_slug body_slug content editor_slug : String) (note0 : Note)
    (editor : NotesUser)
    (hnote : db.findNoteBySlug url_slug = some note0)
    (hbody : body_slug ≠ "") (hcontent : content ≠ "") (hedit : editor_slug ≠ "")
    (huser : db.findUserBySlug editor_slug = some editor) :
    ∃ updated : Note,
      (updateNoteView db now url_slug body_slug content editor_slug).1 =
        Resp.ok updated ∧
      updated.content = content ∧
      updated.last_modified_by_user = editor.userslug ∧
      updated ∈ (updateNoteView db now url_slug body_slug content editor_slug).2.notes ∧
      (updateNoteView db now url_slug body_slug content editor_slug).2.history =
        db.history ++
          [{ note := note0.slug, original_content := note0.content,
             updated_content := content, updated_by_user := editor.userslug,
             timestamp := now }] := by
  have hmem : note0 ∈ db.notes := findNoteBySlug_mem hnote
  have hslug : (note0.slug == url_slug) = true := by
    simpa using findNoteBySlug_slug hnote
  refine ⟨{ note0 with content := content, last_modified_by_user := editor.userslug }, ?_, rfl, rfl, ?_, ?_⟩
  · simp [updateNoteView, hnote, huser, hbody, hcontent, hedit]
  · simp [updateNoteView, hnote, huser, hbody, hcontent, hedit, List.mem_map]
    exact ⟨note0, hmem, fun hne => absurd (by simpa using hslug) hne⟩
  · simp [updateNoteView, hnote, huser, hbody, hcontent, hedit]

/-- C4: `create_note` with an owner slug that resolves to no user fails
with the structured "User does not exist" error (the spec's `UnknownUser`)
and changes nothing; with a resolving owner it creates exactly one note
whose content is the given content and whose `created_by_user` and
`last_modified_by_user` are both the owner, and appends nothing to the
revision ledger (the history of the new note starts empty). -/
theorem create_note_unknown_owner_or_success (db : DB) (now : Nat)
    (freshSlug owner_slug content : String)
    (howner : owner_slug ≠ "") :
    (db.findUserBySlug owner_slug = none →
       ∃ errs, (createNoteView db now freshSlug owner_slug content).1 =
           Resp.clientError errs ∧
         ("user_slug", "User does not exist") ∈ errs ∧
         (createNoteView db now freshSlug owner_slug content).2 = db) ∧
    (∀ owner : NotesUser, db.findUserBySlug owner_slug = some owner →
       content ≠ "" →
       ∃ note : Note,
         (createNoteView db now freshSlug owner_slug content).1 = Resp.ok note ∧
         note.content = content ∧
         note.created_by_user = owner.userslug ∧
         note.last_modified_by_user = owner.userslug ∧
         (createNoteView db now freshSlug owner_slug content).2 =
           { db with notes := db.notes ++ [note] } ∧
         (createNoteView db now freshSlug owner_slug content).2.history =
           db.history) := by
  constructor
  · intro hnone
    refine ⟨[("user_slug", "User does not exist")] ++
        (if content == "" then [("content", "This field may not be blank.")] else []),
      ?_, ?_, ?_⟩
    · simp [createNoteView, howner, hnone]
    · simp
    · simp [createNoteView, howner, hnone]
  · intro owner hsome hcontent
    have hos : owner.userslug = owner_slug := findUserBySlug_userslug hsome
    refine ⟨{ slug := freshSlug, created_by_user := owner_slug,
              last_modified_by_user := owner_slug, content := content,
              created_at := now }, ?_, rfl, hos.symm, hos.symm, ?_, ?_⟩
    · simp [createNoteView, howner, hsome, hcontent]
    · simp [createNoteView, howner, hsome, hcontent]
    · simp [createNoteView, howner, hsome, hcontent]

/-- C5: registering a fresh e-mail succeeds and persists exactly one user
carrying that e-mail; any later registration against a store that already
holds a user with that e-mail fails with the structured
"Email must be unique" error (the spec's `DuplicateEmail`) and persists
nothing. -/
theorem register_duplicate_email (db : DB)
    (freshSlug email password first_name last_name : String)
    (hemail : email ≠ "") (hpw : password ≠ "")
    (hfresh : ∀ u ∈ db.users, u.email ≠ email) :
    (∃ user : NotesUser,
       (registerView db freshSlug email password first_name last_name).1 =
         Resp.ok user ∧
       user.email = email ∧
       (registerView db freshSlug email password first_name last_name).2 =
         { db with users := db.users ++ [user] }) ∧
    (∀ (db2 : DB) (fresh2 pw2 fn2 ln2 : String),
       (∃ u ∈ db2.users, u.email = email) →
       (∃ errs,
          (registerView db2 fresh2 email pw2 fn2 ln2).1 = Resp.clientError errs ∧
          ("email", "Email must be unique") ∈ errs) ∧
       (registerView db2 fresh2 email pw2 fn2 ln2).2 = db2) := by
  have hany : (db.users.any (fun u => u.email == email)) = false := by
    rw [List.any_eq_false]
    intro u hu
    simpa using hfresh u hu
  constructor
  · refine ⟨{ userslug := freshSlug, username := email, email := email,
              password := password, first_name := first_name,
              last_name := last_name }, ?_, rfl, ?_⟩
    · simp [registerView, hemail, hpw, hany]
    · simp [registerView, hemail, hpw, hany]
  · intro db2 fresh2 pw2 fn2 ln2 hdup
    have hany2 : (db2.users.any (fun u => u.email == email)) = true := by
      rw [List.any_eq_true]
      obtain ⟨u, hu, he⟩ := hdup
      exact ⟨u, hu, by simpa using he⟩
    constructor
    · refine ⟨[("email", "Email must be unique")] ++
          (if pw2 == "" then [("password", "This field may not be blank.")] else []),
        ?_, ?_⟩
      · simp [registerView, hemail, hany2]
      · simp
    · simp [registerView, hemail, hany2]

/-- C6: a `share` call whose note and sharer both resolve succeeds with no
error surfaced, and the recipient set of the resulting grant contains a
slug iff that slug occurs in `recipient_slugs` and resolves to an existing
user — every unresolved entry is silently skipped. -/
theorem share_recipient_set_exactly_resolved (db : DB) (now : Nat)
    (note_slug sharer_slug : String) (recipient_slugs : List String)
    (note0 : Note) (sharer : NotesUser)
    (hns : note_slug ≠ "") (hss : sharer_slug ≠ "")
    (hnote : db.findNoteBySlug note_slug = some note0)
    (hsharer : db.findUserBySlug sharer_slug = some sharer) :
    ∃ grant : SharedNote,
      (shareView db now note_slug sharer_slug recipient_slugs).1 = Resp.ok grant ∧
      (∀ s : String, s ∈ grant.shared_with ↔
          s ∈ recipient_slugs ∧ (db.findUserBySlug s).isSome) ∧
      (shareView db now note_slug sharer_slug recipient_slugs).2.shares =
        db.shares ++ [grant] := by
  refine ⟨{ note := note0.slug, shared_by := sharer.userslug,
            shared_with := resolveRecipients db recipient_slugs, shared_at := now },
    ?_, ?_, ?_⟩
  · simp [shareView, hns, hss, hnote, hsharer]
  · intro s
    exact mem_resolveRecipients db recipient_slugs s
  · simp [shareView, hns, hss, hnote, hsharer]

/-- C7 counterexample: sharing an existing note, by an existing user, with
the single unresolvable recipient slug "bogus" completes (2xx) and leaves a
Share Grant in the store whose `shared_with` recipient set is empty — the
claimed invariant that every grant existing after a completed share has a
non-empty recipient set is false. -/
theorem share_completes_with_empty_recipient_set :
    ∃ g ∈ (shareView sdb2 5 "noteoneslg" "useroneslg" ["bogus"]).2.shares,
      g.shared_with = [] := by
  refine ⟨{ note := "noteoneslg", shared_by := "useroneslg",
            shared_with := [], shared_at := 5 }, ?_, rfl⟩
  decide

/-- C7 amended: after a completed share the grant is appended to the store
and its recipient set is non-empty iff at least one entry of
`recipient_slugs` resolves to an existing user; when none resolves the
grant exists with an empty recipient set. -/
theorem share_recipients_nonempty_iff_one_resolves (db : DB) (now : Nat)
    (note_slug sharer_slug : String) (recipient_slugs : List String)
    (note0 : Note) (sharer : NotesUser)
    (hns : note_slug ≠ "") (hss : sharer_slug ≠ "")
    (hnote : db.findNoteBySlug note_slug = some note0)
    (hsharer : db.findUserBySlug sharer_slug = some sharer) :
    ∃ grant : SharedNote,
      (shareView db now note_slug sharer_slug recipient_slugs).1 = Resp.ok grant ∧
      grant ∈ (shareView db now note_slug sharer_slug recipient_slugs).2.shares ∧
      (grant.shared_with ≠ [] ↔
        ∃ s ∈ recipient_slugs, (db.findUserBySlug s).isSome) := by
  refine ⟨{ note := note0.slug, shared_by := sharer.userslug,
            shared_with := resolveRecipients db recipient_slugs, shared_at := now },
    ?_, ?_, ?_⟩
  · simp [shareView, hns, hss, hnote, hsharer]
  · simp [shareView, hns, hss, hnote, hsharer]
  · constructor
    · intro hne
      obtain ⟨s, hs⟩ := List.exists_mem_of_ne_nil _ hne
      have := (mem_resolveRecipients db recipient_slugs s).mp hs
      exact ⟨s, this.1, this.2⟩
    · rintro ⟨s, hs, hsome⟩ hnil
      have hmm : s ∈ resolveRecipients db recipient_slugs :=
        (mem_resolveRecipients db recipient_slugs s).mpr ⟨hs, hsome⟩
      have hnil2 : resolveRecipients db recipient_slugs = [] := hnil
      rw [hnil2] at hmm
      exact List.not_mem_nil s hmm

/-- C8: a successful `update_note` changes neither the slug, nor
`created_by_user`, nor `created_at` of any stored note: the note table
after the call is related row-by-row to the table before it with those
three fields equal.  (`huniq` is the uniqueness of the note slug, a
database constraint `unique=True` on `Note.slug`.) -/
theorem update_preserves_slug_creator_created_at (db : DB) (now : Nat)
    (url_slug body_slug content editor_slug : String) (note0 : Note)
    (editor : NotesUser)
    (hnote : db.findNoteBySlug url_slug = some note0)
    (hbody : body_slug ≠ "") (hcontent : content ≠ "") (hedit : editor_slug ≠ "")
    (huser : db.findUserBySlug editor_slug = some editor)
    (huniq : ∀ n ∈ db.notes, n.slug = url_slug → n = note0) :
    List.Forall₂
      (fun n n2 => n2.slug = n.slug ∧ n2.created_by_user = n.created_by_user ∧
        n2.created_at = n.created_at)
      db.notes
      (updateNoteView db now url_slug body_slug content editor_slug).2.notes := by
  have hred : (updateNoteView db now url_slug body_slug content editor_slug).2.notes =
      db.notes.map (fun n => if n.slug == url_slug then
        { note0 with content := content, last_modified_by_user := editor.userslug }
        else n) := by
    simp [updateNoteView, hnote, huser, hbody, hcontent, hedit]
  rw [hred, List.forall₂_map_right_iff]
  rw [List.forall₂_same]
  intro n hn
  by_cases hx : n.slug = url_slug
  · have hn0 : n = note0 := huniq n hn hx
    subst hn0
    simp [hx]
  · simp [hx]

/-- C9 counterexample: a `share` whose note slug resolves to no note (the
store holds one user and no notes) aborts with the unhandled
`Note.DoesNotExist` exception — an HTTP 500 process-level fault, not the
structured NotFound outcome the claim requires; no Share Grant is
created. -/
theorem share_missing_note_is_unhandled_fault :
    (shareView sdb1 1 "missingnote" "useroneslg" []).1 =
      Resp.serverError "Note matching query does not exist." ∧
    (shareView sdb1 1 "missingnote" "useroneslg" []).2 = sdb1 := by
  decide

/-- C9 amended: `share` with a note slug that resolves to no note, or a
sharer slug that resolves to no user, aborts the whole operation — the
store, and in particular the set of Share Grants, is unchanged — but the
failure escapes as an unhandled `DoesNotExist` exception (HTTP 500), not
as a structured NotFound outcome. -/
theorem share_unresolved_note_or_sharer_aborts (db : DB) (now : Nat)
    (note_slug sharer_slug : String) (recipient_slugs : List String)
    (hns : note_slug ≠ "") (hss : sharer_slug ≠ "")
    (h : db.findNoteBySlug note_slug = none ∨
         db.findUserBySlug sharer_slug = none) :
    ∃ msg, (shareView db now note_slug sharer_slug recipient_slugs).1 =
        Resp.serverError msg ∧
      (shareView db now note_slug sharer_slug recipient_slugs).2 = db := by
  cases hn : db.findNoteBySlug note_slug with
  | none =>
    refine ⟨"Note matching query does not exist.", ?_, ?_⟩
    · simp [shareView, hns, hss, hn]
    · simp [shareView, hns, hss, hn]
  | some note0 =>
    have hu : db.findUserBySlug sharer_slug = none := by
      cases h with
      | inl h2 => rw [hn] at h2; cases h2
      | inr h2 => exact h2
    refine ⟨"NotesUser matching query does not exist.", ?_, ?_⟩
    · simp [shareView, hns, hss, hn, hu]
    · simp [shareView, hns, hss, hn, hu]

/-- C10: a request with empty-string content is rejected by field
validation — `content` is a required `CharField`, whose default
`allow_blank=False` refuses blank input — with a structured per-field
error, before any state change: neither `create_note` nor `update_note`
(on an existing note) can put empty content into the store. -/
theorem empty_content_rejected_before_state_change (db : DB) (now : Nat)
    (freshSlug user_slug url_slug body_slug editor_slug : String) (note0 : Note)
    (hnote : db.findNoteBySlug url_slug = some note0) :
    (∃ errs, (createNoteView db now freshSlug user_slug "").1 =
        Resp.clientError errs ∧
      ("content", "This field may not be blank.") ∈ errs) ∧
    (createNoteView db now freshSlug user_slug "").2 = db ∧
    (∃ errs, (updateNoteView db now url_slug body_slug "" editor_slug).1 =
        Resp.clientError errs ∧
      ("content", "This field may not be blank.") ∈ errs) ∧
    (updateNoteView db now url_slug body_slug "" editor_slug).2 = db := by
  refine ⟨?_, ?_, ?_, ?_⟩
  · refine ⟨(if user_slug == "" then [("user_slug", "This field may not be blank.")]
       else if (db.findUserBySlug user_slug).isNone then
         [("user_slug", "User does not exist")]
       else []) ++ [("content", "This field may not be blank.")], ?_, ?_⟩
    · simp [createNoteView]
    · simp
  · simp [createNoteView]
  · refine ⟨(if body_slug == "" then [("slug", "This field may not be blank.")]
        else []) ++ [("content", "This field may not be blank.")] ++
       (if editor_slug == "" then
         [("last_modified_by_user", "This field may not be blank.")] else []),
      ?_, ?_⟩
    · simp [updateNoteView, hnote]
    · simp
  · simp [updateNoteView, hnote]

/-- C1: the version-history query ignores its note slug.  In the state
`hdb5` — two notes, each updated exactly once (N = 1 update for the first
note) — querying the history of the first note returns both ledger
entries, including the second note's, instead of exactly the one entry
belonging to the first note: the endpoint serializes the whole unfiltered
`NoteHistory` table. -/
theorem historyView_ignores_requested_note :
    (historyView hdb5 "noteoneslg").length = 2 ∧
    (historyView hdb5 "noteoneslg").map HistoryOut.note_slug =
      ["noteoneslg", "notetwoslg"] := by
  decide

/-- Witness for C2 at a concrete store: one user, one note, editor slug
"nouser" resolving to nobody. -/
theorem update_unknown_editor_leaves_state_witness :
    (updateNoteView sdb2 7 "noteoneslg" "noteoneslg" "new" "nouser").1 =
      Resp.clientError [("detail", "Invalid user slug provided.")] ∧
    (updateNoteView sdb2 7 "noteoneslg" "noteoneslg" "new" "nouser").2 = sdb2 :=
  update_unknown_editor_leaves_state sdb2 7 "noteoneslg" "noteoneslg" "new" "nouser"
    noteOne (by decide) (by decide) (by decide) (by decide) (by decide)

/-- Witness for C3 at a concrete store, updating the note to content equal
to its current content — the revision entry is still appended. -/
theorem update_success_appends_one_revision_witness :
    ∃ updated : Note,
      (updateNoteView sdb2 7 "noteoneslg" "noteoneslg" "hello" "useroneslg").1 =
        Resp.ok updated ∧
      updated.content = "hello" ∧
      updated.last_modified_by_user = userOne.userslug ∧
      updated ∈
        (updateNoteView sdb2 7 "noteoneslg" "noteoneslg" "hello" "useroneslg").2.notes ∧
      (updateNoteView sdb2 7 "noteoneslg" "noteoneslg" "hello" "useroneslg").2.history =
        sdb2.history ++
          [{ note := noteOne.slug, original_content := noteOne.content,
             updated_content := "hello", updated_by_user := userOne.userslug,
             timestamp := 7 }] :=
  update_success_appends_one_revision sdb2 7 "noteoneslg" "noteoneslg" "hello"
    "useroneslg" noteOne userOne (by decide) (by decide) (by decide) (by decide)
    (by decide)

/-- Witness for C4 at a concrete store with one registered user. -/
theorem create_note_unknown_owner_or_success_witness :
    (sdb1.findUserBySlug "useroneslg" = none →
       ∃ errs, (createNoteView sdb1 3 "newnoteslg" "useroneslg" "hi").1 =
           Resp.clientError errs ∧
         ("user_slug", "User does not exist") ∈ errs ∧
         (createNoteView sdb1 3 "newnoteslg" "useroneslg" "hi").2 = sdb1) ∧
    (∀ owner : NotesUser, sdb1.findUserBySlug "useroneslg" = some owner →
       "hi" ≠ "" →
       ∃ note : Note,
         (createNoteView sdb1 3 "newnoteslg" "useroneslg" "hi").1 = Resp.ok note ∧
         note.content = "hi" ∧
         note.created_by_user = owner.userslug ∧
         note.last_modified_by_user = owner.userslug ∧
         (createNoteView sdb1 3 "newnoteslg" "useroneslg" "hi").2 =
           { sdb1 with notes := sdb1.notes ++ [note] } ∧
         (createNoteView sdb1 3 "newnoteslg" "useroneslg" "hi").2.history =
           sdb1.history) :=
  create_note_unknown_owner_or_success sdb1 3 "newnoteslg" "useroneslg" "hi"
    (by decide)

/-- Witness for C5 at a concrete store: the e-mail "b@x.com" is fresh in
`sdb1`. -/
theorem register_duplicate_email_witness :
    (∃ user : NotesUser,
       (registerView sdb1 "usertwoslg" "b@x.com" "pw2" "Bo" "Ng").1 =
         Resp.ok user ∧
       user.email = "b@x.com" ∧
       (registerView sdb1 "usertwoslg" "b@x.com" "pw2" "Bo" "Ng").2 =
         { sdb1 with users := sdb1.users ++ [user] }) ∧
    (∀ (db2 : DB) (fresh2 pw2 fn2 ln2 : String),
       (∃ u ∈ db2.users, u.email = "b@x.com") →
       (∃ errs,
          (registerView db2 fresh2 "b@x.com" pw2 fn2 ln2).1 =
            Resp.clientError errs ∧
          ("email", "Email must be unique") ∈ errs) ∧
       (registerView db2 fresh2 "b@x.com" pw2 fn2 ln2).2 = db2) :=
  register_duplicate_email sdb1 "usertwoslg" "b@x.com" "pw2" "Bo" "Ng"
    (by decide) (by decide) (by decide)

/-- Witness for C6 at a concrete store and the recipient list
["useroneslg", "bogus"], of which only the first resolves. -/
theorem share_recipient_set_exactly_resolved_witness :
    ∃ grant : SharedNote,
      (shareView sdb2 5 "noteoneslg" "useroneslg" ["useroneslg", "bogus"]).1 =
        Resp.ok grant ∧
      (∀ s : String, s ∈ grant.shared_with ↔
          s ∈ ["useroneslg", "bogus"] ∧ (sdb2.findUserBySlug s).isSome) ∧
      (shareView sdb2 5 "noteoneslg" "useroneslg" ["useroneslg", "bogus"]).2.shares =
        sdb2.shares ++ [grant] :=
  share_recipient_set_exactly_resolved sdb2 5 "noteoneslg" "useroneslg"
    ["useroneslg", "bogus"] noteOne userOne (by decide) (by decide) (by decide)
    (by decide)

/-- Witness for the C7 amendment at a concrete store with the single
unresolvable recipient slug "bogus". -/
theorem share_recipients_nonempty_iff_one_resolves_witness :
    ∃ grant : SharedNote,
      (shareView sdb2 5 "noteoneslg" "useroneslg" ["bogus"]).1 = Resp.ok grant ∧
      grant ∈ (shareView sdb2 5 "noteoneslg" "useroneslg" ["bogus"]).2.shares ∧
      (grant.shared_with ≠ [] ↔
        ∃ s ∈ ["bogus"], (sdb2.findUserBySlug s).isSome) :=
  share_recipients_nonempty_iff_one_resolves sdb2 5 "noteoneslg" "useroneslg"
    ["bogus"] noteOne userOne (by decide) (by decide) (by decide) (by decide)

/-- Witness for C8 at a concrete store. -/
theorem update_preserves_slug_creator_created_at_witness :
    List.Forall₂
      (fun n n2 => n2.slug = n.slug ∧ n2.created_by_user = n.created_by_user ∧
        n2.created_at = n.created_at)
      sdb2.notes
      (updateNoteView sdb2 7 "noteoneslg" "noteoneslg" "hello world"
        "useroneslg").2.notes :=
  update_preserves_slug_creator_created_at sdb2 7 "noteoneslg" "noteoneslg"
    "hello world" "useroneslg" noteOne userOne (by decide) (by decide) (by decide)
    (by decide) (by decide) (by decide)

/-- Witness for the C9 amendment at a concrete store with no notes. -/
theorem share_unresolved_note_or_sharer_aborts_witness :
    ∃ msg, (shareView sdb1 1 "missingnote" "useroneslg" []).1 =
        Resp.serverError msg ∧
      (shareView sdb1 1 "missingnote" "useroneslg" []).2 = sdb1 :=
  share_unresolved_note_or_sharer_aborts sdb1 1 "missingnote" "useroneslg" []
    (by decide) (by decide) (Or.inl (by decide))

/-- Witness for C10 at a concrete store with one user and one note. -/
theorem empty_content_rejected_before_state_change_witness :
    (∃ errs, (createNoteView sdb2 9 "freshnslug" "useroneslg" "").1 =
        Resp.clientError errs ∧
      ("content", "This field may not be blank.") ∈ errs) ∧
    (createNoteView sdb2 9 "freshnslug" "useroneslg" "").2 = sdb2 ∧
    (∃ errs, (updateNoteView sdb2 9 "noteoneslg" "noteoneslg" "" "useroneslg").1 =
        Resp.clientError errs ∧
      ("content", "This field may not be blank.") ∈ errs) ∧
    (updateNoteView sdb2 9 "noteoneslg" "noteoneslg" "" "useroneslg").2 = sdb2 :=
  empty_content_rejected_before_state_change sdb2 9 "freshnslug" "useroneslg"
    "noteoneslg" "noteoneslg" "useroneslg" noteOne (by decide)
